import Mathlib

/-!
Verification of the transaction submission and confirmation orchestrator of the
lighter-ts repository (SignerClient in src/lighter-export/src/signer/wasm-signer-client.ts,
the polling helper waitAndCheckTransaction in src/test_manual_close.ts, and the
nonce-fetch callback of initializeOptimizations).  Stateful code is embedded by
explicit state passing; JavaScript dynamic values observed by the code are
embedded by a small JSON value model.
-/

namespace LighterTs

/-- Model of a JavaScript JSON value as observed by the client code.
Plain strings are `jstr s` (raw content `s`, not valid JSON text by convention);
a nonempty string whose content is JSON text is `jtext p`, where `p` is the
outcome of JSON.parse on that content (`none` when the parse throws).  The
empty string is written `jstr ""`. -/
inductive Json where
  | jnull : Json
  | jbool : Bool → Json
  | jnum : Int → Json
  | jstr : String → Json
  | jtext : Option Json → Json
  | jarr : List Json → Json
  | jobj : List (String × Json) → Json

mutual

/-- Decidable equality on JSON values. -/
def Json.decEq : (a b : Json) → Decidable (a = b)
  | .jnull, .jnull => isTrue rfl
  | .jbool a, .jbool b =>
    if h : a = b then isTrue (h ▸ rfl) else isFalse (fun hh => h (by injection hh))
  | .jnum a, .jnum b =>
    if h : a = b then isTrue (h ▸ rfl) else isFalse (fun hh => h (by injection hh))
  | .jstr a, .jstr b =>
    if h : a = b then isTrue (h ▸ rfl) else isFalse (fun hh => h (by injection hh))
  | .jtext p, .jtext q =>
    match Json.decEqOpt p q with
    | isTrue h => isTrue (h ▸ rfl)
    | isFalse h => isFalse (fun hh => h (by injection hh))
  | .jarr xs, .jarr ys =>
    match Json.decEqList xs ys with
    | isTrue h => isTrue (h ▸ rfl)
    | isFalse h => isFalse (fun hh => h (by injection hh))
  | .jobj xs, .jobj ys =>
    match Json.decEqFields xs ys with
    | isTrue h => isTrue (h ▸ rfl)
    | isFalse h => isFalse (fun hh => h (by injection hh))
  | .jnull, .jbool _ => isFalse (fun hh => Json.noConfusion hh)
  | .jnull, .jnum _ => isFalse (fun hh => Json.noConfusion hh)
  | .jnull, .jstr _ => isFalse (fun hh => Json.noConfusion hh)
  | .jnull, .jtext _ => isFalse (fun hh => Json.noConfusion hh)
  | .jnull, .jarr _ => isFalse (fun hh => Json.noConfusion hh)
  | .jnull, .jobj _ => isFalse (fun hh => Json.noConfusion hh)
  | .jbool _, .jnull => isFalse (fun hh => Json.noConfusion hh)
  | .jbool _, .jnum _ => isFalse (fun hh => Json.noConfusion hh)
  | .jbool _, .jstr _ => isFalse (fun hh => Json.noConfusion hh)
  | .jbool _, .jtext _ => isFalse (fun hh => Json.noConfusion hh)
  | .jbool _, .jarr _ => isFalse (fun hh => Json.noConfusion hh)
  | .jbool _, .jobj _ => isFalse (fun hh => Json.noConfusion hh)
  | .jnum _, .jnull => isFalse (fun hh => Json.noConfusion hh)
  | .jnum _, .jbool _ => isFalse (fun hh => Json.noConfusion hh)
  | .jnum _, .jstr _ => isFalse (fun hh => Json.noConfusion hh)
  | .jnum _, .jtext _ => isFalse (fun hh => Json.noConfusion hh)
  | .jnum _, .jarr _ => isFalse (fun hh => Json.noConfusion hh)
  | .jnum _, .jobj _ => isFalse (fun hh => Json.noConfusion hh)
  | .jstr _, .jnull => isFalse (fun hh => Json.noConfusion hh)
  | .jstr _, .jbool _ => isFalse (fun hh => Json.noConfusion hh)
  | .jstr _, .jnum _ => isFalse (fun hh => Json.noConfusion hh)
  | .jstr _, .jtext _ => isFalse (fun hh => Json.noConfusion hh)
  | .jstr _, .jarr _ => isFalse (fun hh => Json.noConfusion hh)
  | .jstr _, .jobj _ => isFalse (fun hh => Json.noConfusion hh)
  | .jtext _, .jnull => isFalse (fun hh => Json.noConfusion hh)
  | .jtext _, .jbool _ => isFalse (fun hh => Json.noConfusion hh)
  | .jtext _, .jnum _ => isFalse (fun hh => Json.noConfusion hh)
  | .jtext _, .jstr _ => isFalse (fun hh => Json.noConfusion hh)
  | .jtext _, .jarr _ => isFalse (fun hh => Json.noConfusion hh)
  | .jtext _, .jobj _ => isFalse (fun hh => Json.noConfusion hh)
  | .jarr _, .jnull => isFalse (fun hh => Json.noConfusion hh)
  | .jarr _, .jbool _ => isFalse (fun hh => Json.noConfusion hh)
  | .jarr _, .jnum _ => isFalse (fun hh => Json.noConfusion hh)
  | .jarr _, .jstr _ => isFalse (fun hh => Json.noConfusion hh)
  | .jarr _, .jtext _ => isFalse (fun hh => Json.noConfusion hh)
  | .jarr _, .jobj _ => isFalse (fun hh => Json.noConfusion hh)
  | .jobj _, .jnull => isFalse (fun hh => Json.noConfusion hh)
  | .jobj _, .jbool _ => isFalse (fun hh => Json.noConfusion hh)
  | .jobj _, .jnum _ => isFalse (fun hh => Json.noConfusion hh)
  | .jobj _, .jstr _ => isFalse (fun hh => Json.noConfusion hh)
  | .jobj _, .jtext _ => isFalse (fun hh => Json.noConfusion hh)
  | .jobj _, .jarr _ => isFalse (fun hh => Json.noConfusion hh)

/-- Decidable equality on optional JSON values. -/
def Json.decEqOpt : (a b : Option Json) → Decidable (a = b)
  | none, none => isTrue rfl
  | some x, some y =>
    match Json.decEq x y with
    | isTrue h => isTrue (h ▸ rfl)
    | isFalse h => isFalse (fun hh => h (by injection hh))
  | none, some _ => isFalse (fun hh => Option.noConfusion hh)
  | some _, none => isFalse (fun hh => Option.noConfusion hh)

/-- Decidable equality on JSON value lists. -/
def Json.decEqList : (a b : List Json) → Decidable (a = b)
  | [], [] => isTrue rfl
  | x :: xs, y :: ys =>
    match Json.decEq x y, Json.decEqList xs ys with
    | isTrue h1, isTrue h2 => isTrue (h1 ▸ h2 ▸ rfl)
    | isFalse h1, _ => isFalse (fun hh => h1 (by injection hh))
    | _, isFalse h2 => isFalse (fun hh => h2 (by injection hh))
  | [], _ :: _ => isFalse (fun hh => List.noConfusion hh)
  | _ :: _, [] => isFalse (fun hh => List.noConfusion hh)

/-- Decidable equality on JSON object field lists. -/
def Json.decEqFields : (a b : List (String × Json)) → Decidable (a = b)
  | [], [] => isTrue rfl
  | (s, x) :: xs, (t, y) :: ys =>
    if hs : s = t then
      match Json.decEq x y, Json.decEqFields xs ys with
      | isTrue h1, isTrue h2 => isTrue (hs ▸ h1 ▸ h2 ▸ rfl)
      | isFalse h1, _ =>
        isFalse (fun hh => h1 (congrArg Prod.snd (by injection hh)))
      | _, isFalse h2 => isFalse (fun hh => h2 (by injection hh))
    else
      isFalse (fun hh => hs (congrArg Prod.fst (by injection hh)))
  | [], _ :: _ => isFalse (fun hh => List.noConfusion hh)
  | _ :: _, [] => isFalse (fun hh => List.noConfusion hh)

end

instance : DecidableEq Json := Json.decEq

/-- JavaScript truthiness of a value: null, false, 0 and the empty string are
falsy; objects, arrays and nonempty strings (including every `jtext`) are
truthy. -/
def Json.truthy : Json → Bool
  | .jnull => false
  | .jbool b => b
  | .jnum n => n != 0
  | .jstr s => s != ""
  | .jtext _ => true
  | .jarr _ => true
  | .jobj _ => true

/-- JavaScript member access `v.k`.  Accessing a member of null throws a
TypeError (`none`); on an object the field value is returned when present
(`some (some w)`) and undefined when absent (`some none`); member access on
any other value yields undefined. -/
def Json.getMem : Json → String → Option (Option Json)
  | .jnull, _ => none
  | .jobj fields, k => some (fields.lookup k)
  | _, _ => some none

/-- Model of JSON.parse applied to a field value.  A string carrying valid
JSON text parses to that text's value; other strings throw; numbers, booleans
and null survive the String coercion JSON.parse applies to non-string
arguments; arrays and objects are coerced to non-JSON text and throw. -/
def Json.parseVal : Json → Option Json
  | .jtext p => p
  | .jstr _ => none
  | .jnum n => some (.jnum n)
  | .jbool b => some (.jbool b)
  | .jnull => some .jnull
  | .jarr _ => none
  | .jobj _ => none

/-- JavaScript `a || d` where `a` is an optional field value (undefined when
`none`): the field value when truthy, otherwise the default. -/
def jsOr (a : Option Json) (d : Json) : Json :=
  match a with
  | some v => if v.truthy then v else d
  | none => d

/-- JavaScript `a || d` on an optional string field. -/
def jsStrOr (a : Option String) (d : String) : String :=
  match a with
  | some s => if s != "" then s else d
  | none => d

/-- JavaScript `a || d` on an optional numeric field. -/
def jsIntOr (a : Option Int) (d : Int) : Int :=
  match a with
  | some n => if n != 0 then n else d
  | none => d

/-- Truthiness of an optional string field (`if (x)` in the source). -/
def jsStrTruthy (a : Option String) : Bool :=
  match a with
  | some s => s != ""
  | none => false

/-- Transaction record as observed by the polling code: the numeric wire
status and the raw `event_info` and `info` blobs.  A blob field is `none`
when absent or empty (falsy in the source's `if` guards), `some none` when
present but JSON.parse throws on it, and `some (some v)` when it parses
to `v`. -/
structure Transaction where
  status : Int
  event_info : Option (Option Json)
  info : Option (Option Json)
deriving DecidableEq

/-- Decoded error payload produced by extractError in
src/test_manual_close.ts: the message value and the optional code value. -/
structure ErrInfo where
  message : Json
  code : Option Json
deriving DecidableEq

/-- Embedding of extractError (src/test_manual_close.ts lines 419-435): parse
the event_info blob, take its `ae` field when truthy, parse that inner blob,
and read `message` (defaulted with the string Unknown error) and `code`; every
parse failure is caught and yields `none`. -/
def extractError (tx : Transaction) : Option ErrInfo :=
  match tx.event_info with
  | some (some eventInfo) =>
    match eventInfo.getMem "ae" with
    | none => none
    | some none => none
    | some (some ae) =>
      if ae.truthy then
        match ae.parseVal with
        | none => none
        | some .jnull => none
        | some (.jobj fields) =>
            some { message := jsOr (fields.lookup "message") (.jstr "Unknown error"),
                   code := fields.lookup "code" }
        | some _ =>
            some { message := .jstr "Unknown error", code := none }
      else none
  | _ => none

/-- Embedding of the getErrorInfo closure of waitForTransaction
(src/lighter-export/src/signer/wasm-signer-client.ts lines 1152-1170): return
the raw `ae` field of the parsed event_info blob without a second decode,
otherwise the `Error` or `error` field of the parsed info blob, otherwise the
literal fallback string; thrown parse or member-access errors are caught and
give the fallback. -/
def getErrorInfo (tx : Transaction) : Json :=
  match tx.event_info with
  | some none => .jstr "No error details available"
  | some (some eventInfo) =>
    match eventInfo.getMem "ae" with
    | none => .jstr "No error details available"
    | some (some ae) =>
      if ae.truthy then ae
      else
        match tx.info with
        | some none => .jstr "No error details available"
        | some (some inf) => getErrorInfoInfoStep inf
        | none => .jstr "No error details available"
    | some none =>
      match tx.info with
      | some none => .jstr "No error details available"
      | some (some inf) => getErrorInfoInfoStep inf
      | none => .jstr "No error details available"
  | none =>
    match tx.info with
    | some none => .jstr "No error details available"
    | some (some inf) => getErrorInfoInfoStep inf
    | none => .jstr "No error details available"
where
  /-- Inner step of getErrorInfo on the parsed info blob: return
  `info.Error || info.error` when truthy, else the fallback string; member
  access on null throws and is caught into the fallback. -/
  getErrorInfoInfoStep : Json → Json
  | .jobj fields =>
      let e1 := jsOr (fields.lookup "Error") .jnull
      let e2 := jsOr (fields.lookup "error") .jnull
      if e1.truthy then e1
      else if e2.truthy then e2
      else .jstr "No error details available"
  | _ => .jstr "No error details available"

/-- Server-side encoding of an error pair into the doubly-encoded event_info
payload: the outer blob is an object whose `ae` field is a string containing
the JSON text of the object with the `code` and `message` fields. -/
def encodeErrPayload (code : Int) (message : String) : Json :=
  .jobj [("ae", .jtext (some (.jobj [("code", .jnum code), ("message", .jstr message)])))]

/-- Transaction record carrying a doubly-encoded error payload for the pair
`(code, message)` at the given status. -/
def encodeErrTx (status : Int) (code : Int) (message : String) : Transaction :=
  { status := status, event_info := some (some (encodeErrPayload code message)), info := none }

/-- Decision taken by one polling iteration on a fetched transaction record:
return a success result, return or raise a failure carrying an error payload
and the record's status, or keep polling. -/
inductive PollDecision where
  | success : Int → PollDecision
  | failure : Json → Option Json → Int → PollDecision
  | keepPolling : PollDecision
deriving DecidableEq

/-- Embedding of the per-record classification of waitAndCheckTransaction
(src/test_manual_close.ts lines 448-496): status 2 or 3 with no decoded error
is a success; status 2 or 3 with a decoded error is a failure carrying that
message and code; status 4 or 5 is a failure carrying the decoded message or
the string Transaction failed; every other status keeps polling. -/
def classifyTx (tx : Transaction) : PollDecision :=
  let errorInfo := extractError tx
  if (tx.status == 2 || tx.status == 3) && errorInfo.isNone then
    .success tx.status
  else if tx.status == 2 || tx.status == 3 then
    .failure (jsOr (errorInfo.map (fun e => e.message)) .jnull)
             (match errorInfo with
              | some e => e.code
              | none => none)
             tx.status
  else if tx.status == 4 || tx.status == 5 then
    .failure (jsOr (errorInfo.map (fun e => e.message)) (.jstr "Transaction failed"))
             (match errorInfo with
              | some e => e.code
              | none => none)
             tx.status
  else .keepPolling

/-- Embedding of the per-record decision of waitForTransaction
(src/lighter-export/src/signer/wasm-signer-client.ts lines 1182-1204): only
status 3 returns the transaction as success; status 4 or 5 raises a
TransactionException carrying the getErrorInfo payload; every other status,
including 2, keeps polling, and no error payload is consulted on status 2
or 3. -/
def waitForTransactionClassify (tx : Transaction) : PollDecision :=
  if tx.status == 3 then .success tx.status
  else if tx.status == 4 || tx.status == 5 then
    .failure (getErrorInfo tx) none tx.status
  else .keepPolling

/-- Test whether a character list starts with another character list. -/
def charsStartWith : List Char → List Char → Bool
  | _, [] => true
  | [], _ :: _ => false
  | a :: as, b :: bs => a == b && charsStartWith as bs

/-- Test whether a character list contains another character list as a
contiguous run. -/
def charsContain : List Char → List Char → Bool
  | [], [] => true
  | [], _ :: _ => false
  | a :: as, sub => charsStartWith (a :: as) sub || charsContain as sub

/-- JavaScript `s.includes(sub)` on the underlying character lists. -/
def jsIncludes (s sub : String) : Bool :=
  charsContain s.data sub.data

/-- Classification of a lookup error message as the not-found class
(src/test_manual_close.ts lines 499-503). -/
def isNotFoundErr (msg : String) : Bool :=
  jsIncludes msg "not found" || jsIncludes msg "404" || jsIncludes msg "No transaction found"

/-- Outcome of one getTransaction lookup during the confirmation wait: a
fetched record, or a thrown lookup error with its message. -/
inductive LookupOutcome where
  | found : Transaction → LookupOutcome
  | lookupErr : String → LookupOutcome
deriving DecidableEq

/-- TransactionResult record returned by waitAndCheckTransaction: the success
flag, the optional error message value, the optional error code, and the
status field of the result. -/
structure TransactionResult where
  success : Bool
  error : Option Json
  errorCode : Option Json
  status : Int
deriving DecidableEq

/-- Timeout result of waitAndCheckTransaction (src/test_manual_close.ts lines
518-522): success false, the literal timeout message, and status -1. -/
def timeoutResult : TransactionResult :=
  { success := false, error := some (.jstr "Transaction confirmation timeout"),
    errorCode := none, status := -1 }

/-- Embedding of the polling loop of waitAndCheckTransaction
(src/test_manual_close.ts lines 441-523).  The loop guard on elapsed time is
embedded as fuel counting the remaining iterations; `trace j` is the outcome
of the lookup performed on iteration `j`.  A fetched record is classified; a
not-found lookup error and any other lookup error both sleep and poll again;
exhausted fuel returns the timeout result. -/
def waitAndCheckLoop (trace : Nat → LookupOutcome) : Nat → Nat → TransactionResult
  | _, 0 => timeoutResult
  | i, fuel + 1 =>
    match trace i with
    | .found tx =>
      match classifyTx tx with
      | .success st => { success := true, error := none, errorCode := none, status := st }
      | .failure e c st => { success := false, error := some e, errorCode := c, status := st }
      | .keepPolling => waitAndCheckLoop trace (i + 1) fuel
    | .lookupErr msg =>
      if isNotFoundErr msg then waitAndCheckLoop trace (i + 1) fuel
      else waitAndCheckLoop trace (i + 1) fuel

/-- Response record of the sendTx endpoints (TxHash in
src/src/api/transaction-api.ts): the API may populate tx_hash, hash, both or
neither. -/
structure TxHashResp where
  hash : Option String
  tx_hash : Option String
deriving DecidableEq

/-- The [value, hash, error] tuple returned by the submission operations.
The value component is the echo of the materialized signed payload
(JSON.parse of the txInfo string in the source). -/
structure SubmitTuple where
  value : Option String
  hash : String
  error : Option String
deriving DecidableEq

/-- The exactly-one-of invariant claimed for a submission tuple: a non-empty
hash with a null error, or an empty hash with a non-empty error message. -/
def exactlyOneHashError (t : SubmitTuple) : Bool :=
  (t.hash != "" && t.error == none) ||
  (t.hash == "" &&
    (match t.error with
     | some e => e != ""
     | none => false))

/-- Local next-nonce pointer of the orchestrator for the configured signing
key, abstracting the serving side of NonceCache.getNextNonce: each call
returns the pointer and advances it by one, so the number of nonces a call
consumed is the difference of the pointers around it. -/
structure ClientState where
  nextNonce : Int
deriving DecidableEq

/-- One SignerClient.getNextNonce call (wasm-signer-client.ts lines 473-481):
draw the next cached nonce and advance. -/
def getNextNonceM (s : ClientState) : Int × ClientState :=
  (s.nextNonce, { nextNonce := s.nextNonce + 1 })

/-- Order constants of SignerClient (wasm-signer-client.ts lines 80-117). -/
def ORDER_TYPE_LIMIT : Int := 0

/-- Market order type constant. -/
def ORDER_TYPE_MARKET : Int := 1

/-- Immediate-or-cancel time-in-force constant. -/
def ORDER_TIME_IN_FORCE_IMMEDIATE_OR_CANCEL : Int := 0

/-- Nil trigger price sentinel. -/
def NIL_TRIGGER_PRICE : Int := 0

/-- Sentinel asking for the default 28-day expiry. -/
def DEFAULT_28_DAY_ORDER_EXPIRY : Int := -1

/-- Expiry sentinel used for immediate-or-cancel orders. -/
def DEFAULT_IOC_EXPIRY : Int := 0

/-- Stop-loss order type constant. -/
def ORDER_TYPE_STOP_LOSS : Int := 2

/-- Stop-loss-limit order type constant. -/
def ORDER_TYPE_STOP_LOSS_LIMIT : Int := 3

/-- Take-profit order type constant. -/
def ORDER_TYPE_TAKE_PROFIT : Int := 4

/-- Take-profit-limit order type constant. -/
def ORDER_TYPE_TAKE_PROFIT_LIMIT : Int := 5

/-- CreateOrderParams as passed by callers (wasm-signer-client.ts lines
33-45); optional fields are undefined when `none`. -/
structure CreateOrderParams where
  marketIndex : Int
  clientOrderIndex : Int
  baseAmount : Int
  price : Int
  isAsk : Bool
  orderType : Option Int
  timeInForce : Option Int
  reduceOnly : Option Bool
  triggerPrice : Option Int
  orderExpiry : Option Int
  nonce : Option Int
deriving DecidableEq

/-- Structured parameters handed to the wasm signCreateOrder call. -/
structure WasmOrderParams where
  marketIndex : Int
  clientOrderIndex : Int
  baseAmount : Int
  price : Int
  isAsk : Int
  orderType : Int
  timeInForce : Int
  reduceOnly : Int
  triggerPrice : Int
  orderExpiry : Int
  nonce : Int
deriving DecidableEq

/-- Embedding of the wasmParams object built on the WebSocket path of
createOrder (wasm-signer-client.ts lines 375-387): every defaulted field uses
the JavaScript or-operator, in particular
orderExpiry = params.orderExpiry || DEFAULT_IOC_EXPIRY, with no conversion of
the -1 sentinel. -/
def wsWasmParams (p : CreateOrderParams) (nonce : Int) : WasmOrderParams :=
  { marketIndex := p.marketIndex,
    clientOrderIndex := p.clientOrderIndex,
    baseAmount := p.baseAmount,
    price := p.price,
    isAsk := if p.isAsk then 1 else 0,
    orderType := jsIntOr p.orderType ORDER_TYPE_LIMIT,
    timeInForce := jsIntOr p.timeInForce ORDER_TIME_IN_FORCE_IMMEDIATE_OR_CANCEL,
    reduceOnly := if p.reduceOnly.getD false then 1 else 0,
    triggerPrice := jsIntOr p.triggerPrice NIL_TRIGGER_PRICE,
    orderExpiry := jsIntOr p.orderExpiry DEFAULT_IOC_EXPIRY,
    nonce := nonce }

/-- Embedding of the expiry handling and wasmParams object of
createOrderOptimized (wasm-signer-client.ts lines 427-460): the -1 sentinel is
converted to now plus 28 days in milliseconds, and immediate-or-cancel
non-stop orders are forced to expiry 0. -/
def optimizedWasmParams (p : CreateOrderParams) (nonce : Int) (now : Int) : WasmOrderParams :=
  let orderExpiry0 := p.orderExpiry.getD DEFAULT_28_DAY_ORDER_EXPIRY
  let orderExpiry :=
    if orderExpiry0 == -1 || orderExpiry0 == DEFAULT_28_DAY_ORDER_EXPIRY then
      now + 28 * 24 * 60 * 60 * 1000
    else orderExpiry0
  let isSLTPOrder :=
    p.orderType == some ORDER_TYPE_STOP_LOSS ||
    p.orderType == some ORDER_TYPE_STOP_LOSS_LIMIT ||
    p.orderType == some ORDER_TYPE_TAKE_PROFIT ||
    p.orderType == some ORDER_TYPE_TAKE_PROFIT_LIMIT
  let wasmOrderExpiry :=
    if p.timeInForce == some ORDER_TIME_IN_FORCE_IMMEDIATE_OR_CANCEL && !isSLTPOrder then 0
    else orderExpiry
  { marketIndex := p.marketIndex,
    clientOrderIndex := p.clientOrderIndex,
    baseAmount := p.baseAmount,
    price := p.price,
    isAsk := if p.isAsk then 1 else 0,
    orderType := jsIntOr p.orderType ORDER_TYPE_LIMIT,
    timeInForce := jsIntOr p.timeInForce ORDER_TIME_IN_FORCE_IMMEDIATE_OR_CANCEL,
    reduceOnly := if p.reduceOnly.getD false then 1 else 0,
    triggerPrice := jsIntOr p.triggerPrice NIL_TRIGGER_PRICE,
    orderExpiry := wasmOrderExpiry,
    nonce := nonce }

/-- External collaborator outcomes for one createOrder call: socket
configuration and readiness, the signer, the socket send, the batching flag
and the HTTP send.  A thrown JavaScript error is the `Except.error` case
carrying its message. -/
structure SubmitEnv where
  enableWebSocket : Bool
  wsReady : Bool
  signCreateOrder : WasmOrderParams → Except String String
  wsSendTransaction : String → Except String String
  enableBatching : Bool
  sendTxHttp : String → Except String TxHashResp

/-- Embedding of createOrderOptimized (wasm-signer-client.ts lines 423-471)
composed with the catch of its caller createOrder: draw one nonce, sign, send
over HTTP, and materialize thrown sign or send errors as the error tuple the
outer catch produces. -/
def createOrderOptimizedM (env : SubmitEnv) (p : CreateOrderParams) (now : Int)
    (s : ClientState) : SubmitTuple × ClientState :=
  let (nonce, s1) := getNextNonceM s
  match env.signCreateOrder (optimizedWasmParams p nonce now) with
  | .error e => ({ value := none, hash := "", error := some e }, s1)
  | .ok txInfoStr =>
    match env.sendTxHttp txInfoStr with
    | .error e => ({ value := none, hash := "", error := some e }, s1)
    | .ok r =>
      ({ value := some txInfoStr, hash := jsStrOr r.tx_hash (jsStrOr r.hash ""),
         error := none }, s1)

/-- Fallback of createOrder after the WebSocket attempt (wasm-signer-client.ts
lines 404-411).  The batching branch is modelled from the spec: the
RequestBatcher class (src/utils/request-batcher.ts) is imported but not under
src/; per spec section 4.3 addRequest resolves with exactly this request's
per-item result, which the batch processor of initializeOptimizations fills by
running processOrderRequest, i.e. createOrderOptimized, for the request.  The
resolved object carries id, success, result and timestamp and has no direct
txHash field (the hash sits under result.result), so the tuple returned on the
batching branch, [result, result.txHash || a blank, null], always carries an
empty hash and a null error; its echo component is the result object,
abstracted here as none. -/
def createOrderFallbackM (env : SubmitEnv) (p : CreateOrderParams) (now : Int)
    (s : ClientState) : SubmitTuple × ClientState :=
  if env.enableBatching then
    let s1 := (createOrderOptimizedM env p now s).2
    ({ value := none, hash := "", error := none }, s1)
  else
    createOrderOptimizedM env p now s

/-- Embedding of createOrder (wasm-signer-client.ts lines 360-421): when the
WebSocket channel is enabled and ready, draw a nonce, sign and send on the
socket; a thrown sign or socket-send error is caught by the inner catch and
falls through to the batching or HTTP fallback, which draws a fresh nonce and
re-signs. -/
def createOrderM (env : SubmitEnv) (p : CreateOrderParams) (now : Int)
    (s : ClientState) : SubmitTuple × ClientState :=
  if env.enableWebSocket && env.wsReady then
    let (nonce, s1) := getNextNonceM s
    match env.signCreateOrder (wsWasmParams p nonce) with
    | .ok txInfoStr =>
      match env.wsSendTransaction txInfoStr with
      | .ok h => ({ value := some txInfoStr, hash := h, error := none }, s1)
      | .error _ => createOrderFallbackM env p now s1
    | .error _ => createOrderFallbackM env p now s1
  else
    createOrderFallbackM env p now s

/-- CreateMarketOrderParams (wasm-signer-client.ts lines 47-54). -/
structure CreateMarketOrderParams where
  marketIndex : Int
  clientOrderIndex : Int
  baseAmount : Int
  avgExecutionPrice : Int
  isAsk : Bool
  reduceOnly : Option Bool
deriving DecidableEq

/-- The wasmParams object built by createMarketOrder (wasm-signer-client.ts
lines 510-522): a market-type immediate-or-cancel order with expiry 0. -/
def marketWasmParams (p : CreateMarketOrderParams) (nonce : Int) : WasmOrderParams :=
  { marketIndex := p.marketIndex,
    clientOrderIndex := p.clientOrderIndex,
    baseAmount := p.baseAmount,
    price := p.avgExecutionPrice,
    isAsk := if p.isAsk then 1 else 0,
    orderType := ORDER_TYPE_MARKET,
    timeInForce := ORDER_TIME_IN_FORCE_IMMEDIATE_OR_CANCEL,
    reduceOnly := if p.reduceOnly.getD false then 1 else 0,
    triggerPrice := NIL_TRIGGER_PRICE,
    orderExpiry := 0,
    nonce := nonce }

/-- Embedding of createMarketOrder (wasm-signer-client.ts lines 500-542):
draw one nonce, sign, send, and return the [value, hash, error] tuple; the
catch clause materializes a thrown error's message with an empty hash, and the
success return reads tx_hash or hash from the response, defaulting to the
empty string. -/
def createMarketOrderM (signCO : WasmOrderParams → Except String String)
    (send : String → Except String TxHashResp) (p : CreateMarketOrderParams)
    (s : ClientState) : SubmitTuple × ClientState :=
  let (nonce, s1) := getNextNonceM s
  match signCO (marketWasmParams p nonce) with
  | .error e => ({ value := none, hash := "", error := some e }, s1)
  | .ok txInfoStr =>
    match send txInfoStr with
    | .error e => ({ value := none, hash := "", error := some e }, s1)
    | .ok r =>
      ({ value := some txInfoStr, hash := jsStrOr r.tx_hash (jsStrOr r.hash ""),
         error := none }, s1)

/-- Result object of the wasm signTransfer, signChangePubKey and similar
calls: a txInfo string together with an optional error string. -/
structure SignResp where
  txInfo : String
  error : Option String
deriving DecidableEq

/-- Structured arguments handed to the wasm signTransfer call. -/
structure TransferArgs where
  toAccountIndex : Int
  usdcAmount : Int
  fee : Int
  memo : String
  nonce : Int
deriving DecidableEq

/-- The nonce resolution shared by transfer, withdraw, cancelAllOrders and
updateLeverage: the caller nonce is used unless it is the -1 sentinel, in
which case one cached nonce is drawn. -/
def resolveNonce (nonceArg : Int) (s : ClientState) : Int × ClientState :=
  if nonceArg == -1 then getNextNonceM s else (nonceArg, s)

/-- Embedding of transfer (wasm-signer-client.ts lines 1034-1067): use the
caller nonce unless it is the -1 sentinel, scale the USDC amount by 1e6 (the
amount is modelled integral so the source's floor is exact), sign, return the
signer's error field when truthy, otherwise send and return the tuple. -/
def transferM (signT : TransferArgs → Except String SignResp)
    (send : String → Except String TxHashResp)
    (toAccountIndex usdcAmount nonceArg : Int)
    (s : ClientState) : SubmitTuple × ClientState :=
  let (nonce, s1) := resolveNonce nonceArg s
  match signT { toAccountIndex := toAccountIndex, usdcAmount := usdcAmount * 1000000,
                fee := 0, memo := String.mk (List.replicate 32 'a'), nonce := nonce } with
  | .error e => ({ value := none, hash := "", error := some e }, s1)
  | .ok sr =>
    if jsStrTruthy sr.error then ({ value := none, hash := "", error := sr.error }, s1)
    else
      match send sr.txInfo with
      | .error e => ({ value := none, hash := "", error := some e }, s1)
      | .ok r =>
        ({ value := some sr.txInfo, hash := jsStrOr r.tx_hash (jsStrOr r.hash ""),
           error := none }, s1)

/-- Structured arguments handed to the wasm signChangePubKey call. -/
structure ChangePubKeyArgs where
  pubkey : String
  l1Sig : String
  newApiKeyIndex : Int
  nonce : Int
  expiredAt : Int
deriving DecidableEq

/-- Arguments changeApiKey builds for signChangePubKey (wasm-signer-client.ts
lines 655-685): the new key index defaults to the configured index plus one,
the nonce is the constant 0, and the expiry is now plus ten minutes. -/
def changeApiKeyArgs (cfgApiKeyIndex : Int) (newApiKeyIndexParam : Option Int)
    (newPubkey l1Sig : String) (now : Int) : ChangePubKeyArgs :=
  { pubkey := newPubkey,
    l1Sig := l1Sig,
    newApiKeyIndex := newApiKeyIndexParam.getD (cfgApiKeyIndex + 1),
    nonce := 0,
    expiredAt := now + 10 * 60 * 1000 }

/-- Embedding of changeApiKey (wasm-signer-client.ts lines 655-701): sign the
L1 message with the Ethereum key, sign the ChangePubKey transaction with the
constant nonce 0, and send; no branch consults the nonce cache, so the client
nonce state is passed through untouched.  The echo component of the success
tuple is the send response in the source and is abstracted to the txInfo
string here. -/
def changeApiKeyM (ethSignOutcome : Except String String)
    (signCPK : ChangePubKeyArgs → Except String SignResp)
    (send : String → Except String TxHashResp)
    (cfgApiKeyIndex : Int) (newApiKeyIndexParam : Option Int)
    (newPubkey : String) (now : Int) (s : ClientState) : SubmitTuple × ClientState :=
  match ethSignOutcome with
  | .error e => ({ value := none, hash := "", error := some e }, s)
  | .ok l1Sig =>
    match signCPK (changeApiKeyArgs cfgApiKeyIndex newApiKeyIndexParam newPubkey l1Sig now) with
    | .error e => ({ value := none, hash := "", error := some e }, s)
    | .ok result =>
      if jsStrTruthy result.error then
        ({ value := none, hash := "", error := result.error }, s)
      else
        match send result.txInfo with
        | .error e => ({ value := none, hash := "", error := some e }, s)
        | .ok r =>
          ({ value := some result.txInfo, hash := jsStrOr r.tx_hash (jsStrOr r.hash ""),
             error := none }, s)

/-- Structured arguments handed to the wasm signCancelOrder call. -/
structure CancelOrderArgs where
  marketIndex : Int
  orderIndex : Int
  nonce : Int
deriving DecidableEq

/-- Embedding of cancelOrder (wasm-signer-client.ts lines 625-647): draw one
nonce, sign the cancel, send over HTTP and return the tuple; the catch clause
materializes a thrown error's message with an empty hash. -/
def cancelOrderM (signC : CancelOrderArgs → Except String String)
    (send : String → Except String TxHashResp) (marketIndex orderIndex : Int)
    (s : ClientState) : SubmitTuple × ClientState :=
  let (nonce, s1) := getNextNonceM s
  match signC ⟨marketIndex, orderIndex, nonce⟩ with
  | .error e => ({ value := none, hash := "", error := some e }, s1)
  | .ok txInfoStr =>
    match send txInfoStr with
    | .error e => ({ value := none, hash := "", error := some e }, s1)
    | .ok r =>
      ({ value := some txInfoStr, hash := jsStrOr r.tx_hash (jsStrOr r.hash ""),
         error := none }, s1)

/-- Structured arguments handed to the wasm signWithdraw call. -/
structure WithdrawArgs where
  usdcAmount : Int
  nonce : Int
deriving DecidableEq

/-- Embedding of withdraw (wasm-signer-client.ts lines 732-762): resolve the
nonce, scale the USDC amount by 1e6 (modelled integral), sign, return the
signer's error field when truthy, otherwise send and return the tuple. -/
def withdrawM (signW : WithdrawArgs → Except String SignResp)
    (send : String → Except String TxHashResp) (usdcAmount nonceArg : Int)
    (s : ClientState) : SubmitTuple × ClientState :=
  let (nonce, s1) := resolveNonce nonceArg s
  match signW ⟨usdcAmount * 1000000, nonce⟩ with
  | .error e => ({ value := none, hash := "", error := some e }, s1)
  | .ok sr =>
    if jsStrTruthy sr.error then ({ value := none, hash := "", error := sr.error }, s1)
    else
      match send sr.txInfo with
      | .error e => ({ value := none, hash := "", error := some e }, s1)
      | .ok r =>
        ({ value := some sr.txInfo, hash := jsStrOr r.tx_hash (jsStrOr r.hash ""),
           error := none }, s1)

/-- Structured arguments handed to the wasm signUpdateLeverage call. -/
structure UpdateLeverageArgs where
  marketIndex : Int
  fraction : Int
  marginMode : Int
  nonce : Int
deriving DecidableEq

/-- Embedding of updateLeverage (wasm-signer-client.ts lines 1072-1102):
resolve the nonce, sign with the market index, margin fraction and margin
mode, return the signer's error field when truthy, otherwise send and return
the tuple. -/
def updateLeverageM (signU : UpdateLeverageArgs → Except String SignResp)
    (send : String → Except String TxHashResp)
    (marketIndex marginMode initialMarginFraction nonceArg : Int)
    (s : ClientState) : SubmitTuple × ClientState :=
  let (nonce, s1) := resolveNonce nonceArg s
  match signU ⟨marketIndex, initialMarginFraction, marginMode, nonce⟩ with
  | .error e => ({ value := none, hash := "", error := some e }, s1)
  | .ok sr =>
    if jsStrTruthy sr.error then ({ value := none, hash := "", error := sr.error }, s1)
    else
      match send sr.txInfo with
      | .error e => ({ value := none, hash := "", error := some e }, s1)
      | .ok r =>
        ({ value := some sr.txInfo, hash := jsStrOr r.tx_hash (jsStrOr r.hash ""),
           error := none }, s1)

/-- The thrown-error messages of a collaborator are non-empty. -/
def errMsgsNonEmpty {α β : Type} (f : α → Except String β) : Prop :=
  ∀ x e, f x = Except.error e → e ≠ ""

/-- A transport whose success responses carry a non-empty tx_hash or hash and
whose thrown messages are non-empty. -/
def sendRespects (send : String → Except String TxHashResp) : Prop :=
  (∀ x r, send x = Except.ok r → jsStrOr r.tx_hash (jsStrOr r.hash "") ≠ "") ∧
  (∀ x e, send x = Except.error e → e ≠ "")

/-- One queued request of the order batcher: its identity, its type tag and
its opaque parameters. -/
structure BatchReq where
  id : Nat
  rtype : String
  params : String
deriving DecidableEq

/-- One per-item result pushed by the batch processor: identity, success flag,
optional processing result, optional error message and timestamp. -/
structure BatchRes where
  id : Nat
  success : Bool
  result : Option String
  error : Option String
  timestamp : Nat
deriving DecidableEq

/-- One iteration of the batch processor loop of initializeOptimizations
(wasm-signer-client.ts lines 207-229): dispatch on the request type (the
handlers model the outcomes of processOrderRequest and processCancelRequest,
a request of any other type leaves the result undefined), push a success
record, and catch a processing failure into this item's error record. -/
def processBatchItem (orderH cancelH : String → Except String String) (ts : Nat)
    (r : BatchReq) : BatchRes :=
  match (if r.rtype == "CREATE_ORDER" then some (orderH r.params)
         else if r.rtype == "CANCEL_ORDER" then some (cancelH r.params)
         else none) with
  | some (.ok v) => { id := r.id, success := true, result := some v, error := none, timestamp := ts }
  | some (.error e) => { id := r.id, success := false, result := none, error := some e, timestamp := ts }
  | none => { id := r.id, success := true, result := none, error := none, timestamp := ts }

/-- Embedding of the batch processor function passed to RequestBatcher in
initializeOptimizations (wasm-signer-client.ts lines 204-231): the for-loop
over the queued requests, pushing exactly one result per request. -/
def processBatch (orderH cancelH : String → Except String String) (ts : Nat) :
    List BatchReq → List BatchRes
  | [] => []
  | r :: rs => processBatchItem orderH cancelH ts r :: processBatch orderH cancelH ts rs

/-- Remote next-nonce endpoint state: the value the next fetch returns and the
number of fetches performed so far. -/
structure RemoteState where
  nextNonce : Nat
  fetches : Nat
deriving DecidableEq

/-- One TransactionApi.getNextNonce round trip as seen by the nonce cache. -/
def remoteGetNextNonce (r : RemoteState) : Nat × RemoteState :=
  (r.nextNonce, { r with fetches := r.fetches + 1 })

/-- Embedding of the fetch callback handed to NonceCache in
initializeOptimizations (wasm-signer-client.ts lines 175-188): exactly one
remote getNextNonce call, and the consecutive batch base+0 .. base+count-1
computed from its result. -/
def nonceFetchBatch (count : Nat) (r : RemoteState) : List Nat × RemoteState :=
  let (base, r1) := remoteGetNextNonce r
  ((List.range count).map (fun i => base + i), r1)

/-- Modelled from the spec: the NonceCache class (src/utils/nonce-cache.ts) is
imported but not under src/.  Per spec section 4.1 the per-key state is the
installed window of unused nonces; lastIssued records the most recently issued
nonce for the key. -/
structure NonceCacheState where
  window : List Nat
  lastIssued : Option Nat
  remote : RemoteState
deriving DecidableEq

/-- Modelled from the spec: NonceCache.getNextNonce for one key (spec section
4.1): serve from the window when it has unused capacity; otherwise run the
fetch callback for a batch of batchSize consecutive nonces, install the
window, and return the first value.  Per the spec section 9 design note the
freshly fetched base is adopted unconditionally, without reconciliation
against lastIssued. -/
def cacheGetNextNonce (batchSize : Nat) (s : NonceCacheState) : Nat × NonceCacheState :=
  match s.window with
  | n :: rest => (n, { s with window := rest, lastIssued := some n })
  | [] =>
    let (ns, r1) := nonceFetchBatch batchSize s.remote
    match ns with
    | n :: rest => (n, { window := rest, lastIssued := some n, remote := r1 })
    | [] => (0, { s with remote := r1 })

/-- Issue k nonces in sequence from the cache for one key. -/
def issueMany (batchSize : Nat) : Nat → NonceCacheState → List Nat × NonceCacheState
  | 0, s => ([], s)
  | k + 1, s =>
    let (n, s1) := cacheGetNextNonce batchSize s
    let (ns, s2) := issueMany batchSize k s1
    (n :: ns, s2)

/-- C3: the per-record classification of the confirmation wait in
waitAndCheckTransaction matches the claimed state machine: status 2 or 3 with
no decoded error payload is a success terminal state; status 2 or 3 with a
decoded error payload is a failure terminal state; status 4 and 5 are failure
terminal states; status 0 and 1 keep polling.  This is the claim amended to
name waitAndCheckTransaction: the waitForTransaction poller classifies
differently (see its counterexample). -/
theorem waitAndCheck_classification (tx : Transaction) :
    ((tx.status = 2 ∨ tx.status = 3) → extractError tx = none →
      classifyTx tx = .success tx.status) ∧
    ((tx.status = 2 ∨ tx.status = 3) → extractError tx ≠ none →
      ∃ m c, classifyTx tx = .failure m c tx.status) ∧
    ((tx.status = 4 ∨ tx.status = 5) →
      ∃ m c, classifyTx tx = .failure m c tx.status) ∧
    ((tx.status = 0 ∨ tx.status = 1) → classifyTx tx = .keepPolling) := by
  refine ⟨?_, ?_, ?_, ?_⟩
  · intro h23 hnone
    rcases h23 with h | h <;> simp [classifyTx, h, hnone]
  · intro h23 hsome
    rcases Option.ne_none_iff_exists.mp (by exact hsome) with ⟨e, he⟩
    rcases h23 with h | h <;>
      refine ⟨jsOr (some e.message) Json.jnull, e.code, ?_⟩ <;>
      simp [classifyTx, h, ← he]
  · intro h45
    rcases h45 with h | h <;>
      refine ⟨jsOr ((extractError tx).map (fun e => e.message)) (.jstr "Transaction failed"),
              (match extractError tx with
               | some e => e.code
               | none => none), ?_⟩ <;>
      simp [classifyTx, h]
  · intro h01
    rcases h01 with h | h <;> simp [classifyTx, h]

/-- Witness for the waitAndCheckTransaction classification at concrete
records: a bare COMMITTED record is a success, an EXECUTED record with an
embedded error payload is a failure, a REJECTED record is a failure, and a
PENDING record keeps polling. -/
theorem waitAndCheck_classification_witness :
    classifyTx { status := 2, event_info := none, info := none } = .success 2 ∧
    (∃ m c, classifyTx (encodeErrTx 3 17 "price too far from mark") = .failure m c 3) ∧
    (∃ m c, classifyTx { status := 5, event_info := none, info := none } = .failure m c 5) ∧
    classifyTx { status := 0, event_info := none, info := none } = .keepPolling :=
  ⟨(waitAndCheck_classification { status := 2, event_info := none, info := none }).1
      (Or.inl rfl) rfl,
   (waitAndCheck_classification (encodeErrTx 3 17 "price too far from mark")).2.1
      (Or.inr rfl) (by intro hcon; exact Option.noConfusion hcon),
   (waitAndCheck_classification { status := 5, event_info := none, info := none }).2.2.1
      (Or.inr rfl),
   (waitAndCheck_classification { status := 0, event_info := none, info := none }).2.2.2
      (Or.inl rfl)⟩

/-- C3 counterexample: the claim fails for the waitForTransaction poller,
which the claim's sources also cover: a COMMITTED record with no embedded
error keeps polling instead of being a success terminal state, and an
EXECUTED record carrying a non-empty decoded error payload is returned as a
success instead of a failure. -/
theorem waitForTransaction_classification_counterexample :
    waitForTransactionClassify { status := 2, event_info := none, info := none } =
      .keepPolling ∧
    (∀ st : Int, PollDecision.keepPolling ≠ PollDecision.success st) ∧
    waitForTransactionClassify (encodeErrTx 3 17 "price too far from mark") =
      .success 3 ∧
    (∀ m c st, PollDecision.success 3 ≠ PollDecision.failure m c st) := by
  refine ⟨rfl, ?_, rfl, ?_⟩
  · intro st h
    exact PollDecision.noConfusion h
  · intro m c st h
    exact PollDecision.noConfusion h

/-- C5 amended: extractError recovers the encoded pair through the nested
double decode whenever the encoded message is non-empty; when decoding fails
at the outer level it returns null rather than a fallback message, never
raising; the literal fallback string belongs to getErrorInfo. -/
theorem extractError_roundtrip (st c : Int) (m : String) (hm : m ≠ "") :
    extractError (encodeErrTx st c m) =
      some { message := .jstr m, code := some (.jnum c) } ∧
    (∀ tx : Transaction, tx.event_info = some none → extractError tx = none) ∧
    getErrorInfo { status := st, event_info := some none, info := none } =
      .jstr "No error details available" := by
  refine ⟨?_, ?_, rfl⟩
  · simp [extractError, encodeErrTx, encodeErrPayload, Json.getMem, Json.truthy,
      Json.parseVal, jsOr, List.lookup, hm]
  · intro tx h
    obtain ⟨s2, ei, i2⟩ := tx
    simp only at h
    subst h
    rfl

/-- Witness for the round trip at the spec's example payload with code 17. -/
theorem extractError_roundtrip_witness :
    extractError (encodeErrTx 5 17 "price too far from mark") =
      some { message := .jstr "price too far from mark", code := some (.jnum 17) } ∧
    getErrorInfo { status := 5, event_info := some none, info := none } =
      .jstr "No error details available" :=
  ⟨(extractError_roundtrip 5 17 "price too far from mark" (by decide)).1,
   (extractError_roundtrip 5 17 "price too far from mark" (by decide)).2.2⟩

/-- C5 counterexample: the extractor that performs the nested double decode
(extractError) does not yield the generic fallback message on a malformed
outer blob: it yields null, and the enclosing wait surfaces the string
Transaction failed; an encoded empty message is recovered as Unknown error,
not as the original pair; and the extractor that does yield the fallback
string (getErrorInfo) returns the raw undecoded inner blob on a well-formed
encoded record rather than the pair. -/
theorem error_decode_fallback_counterexample :
    extractError { status := 4, event_info := some none, info := none } = none ∧
    classifyTx { status := 4, event_info := some none, info := none } =
      .failure (.jstr "Transaction failed") none 4 ∧
    extractError (encodeErrTx 4 7 "") =
      some { message := .jstr "Unknown error", code := some (.jnum 7) } ∧
    getErrorInfo (encodeErrTx 4 17 "price too far from mark") =
      .jtext (some (.jobj [("code", .jnum 17),
        ("message", .jstr "price too far from mark")])) := by
  refine ⟨rfl, rfl, rfl, rfl⟩

/-- C6: when every lookup of the confirmation wait fails with a not-found
class error until the deadline, the wait returns the timeout result; a lookup
error makes the loop poll again rather than fail; and the timeout result is
distinct from every failure result the loop can produce from a record, since
those carry the record status from 2 to 5 while the timeout carries -1. -/
theorem waitAndCheck_timeout_on_not_found (trace : Nat → LookupOutcome)
    (i fuel : Nat)
    (h : ∀ j, ∃ m, trace j = .lookupErr m ∧ isNotFoundErr m = true) :
    waitAndCheckLoop trace i fuel = timeoutResult ∧
    (∀ (tr : Nat → LookupOutcome) (j f : Nat) (m : String), tr j = .lookupErr m →
      waitAndCheckLoop tr j (f + 1) = waitAndCheckLoop tr (j + 1) f) ∧
    (∀ tx e c st, classifyTx tx = .failure e c st →
      { success := false, error := some e, errorCode := c, status := st } ≠
        timeoutResult) := by
  refine ⟨?_, ?_, ?_⟩
  · induction fuel generalizing i with
    | zero => rfl
    | succ f ih =>
      obtain ⟨m, hm, _⟩ := h i
      simp [waitAndCheckLoop, hm]
      exact ih (i + 1)
  · intro tr j f m hm
    simp [waitAndCheckLoop, hm]
  · intro tx e c st hcl
    have hst : st = 2 ∨ st = 3 ∨ st = 4 ∨ st = 5 := by
      simp only [classifyTx] at hcl
      split_ifs at hcl with h1 h2 h3
      · injection hcl with hm hc hs
        have h2e : tx.status = 2 ∨ tx.status = 3 := by simpa using h2
        rcases h2e with hh | hh
        · exact Or.inl (hs ▸ hh)
        · exact Or.inr (Or.inl (hs ▸ hh))
      · injection hcl with hm hc hs
        have h3e : tx.status = 4 ∨ tx.status = 5 := by simpa using h3
        rcases h3e with hh | hh
        · exact Or.inr (Or.inr (Or.inl (hs ▸ hh)))
        · exact Or.inr (Or.inr (Or.inr (hs ▸ hh)))
    intro heq
    have : st = (-1 : Int) := congrArg TransactionResult.status heq
    rcases hst with hh | hh | hh | hh <;> omega

/-- Witness for the timeout behavior: three consecutive not-found lookups
exhaust the wait and return the timeout result. -/
theorem waitAndCheck_timeout_witness :
    waitAndCheckLoop (fun _ => .lookupErr "No transaction found for hash") 0 3 =
      timeoutResult :=
  (waitAndCheck_timeout_on_not_found (fun _ => .lookupErr "No transaction found for hash")
    0 3 (fun _ => ⟨"No transaction found for hash", rfl, by decide⟩)).1

/-- The createOrderOptimized path consumes exactly one nonce on every
outcome. -/
lemma createOrderOptimizedM_nextNonce (env : SubmitEnv) (p : CreateOrderParams)
    (now : Int) (s : ClientState) :
    (createOrderOptimizedM env p now s).2.nextNonce = s.nextNonce + 1 := by
  simp only [createOrderOptimizedM, getNextNonceM]
  cases h1 : env.signCreateOrder (optimizedWasmParams p s.nextNonce now) with
  | error e => simp [h1]
  | ok t =>
    cases h2 : env.sendTxHttp t with
    | error e => simp [h1, h2]
    | ok r => simp [h1, h2]

/-- The fallback of createOrder, batched or direct, consumes exactly one
nonce. -/
lemma createOrderFallbackM_nextNonce (env : SubmitEnv) (p : CreateOrderParams)
    (now : Int) (s : ClientState) :
    (createOrderFallbackM env p now s).2.nextNonce = s.nextNonce + 1 := by
  simp only [createOrderFallbackM]
  split
  · exact createOrderOptimizedM_nextNonce env p now s
  · exact createOrderOptimizedM_nextNonce env p now s

/-- C1 amended: a createOrder call consumes exactly one nonce when the socket
channel is not attempted, and when the socket attempt succeeds; but when the
socket attempt fails after drawing its nonce - a thrown socket send or a
thrown sign on the socket path - the fallback channel draws a second fresh
nonce and re-signs, so such a call consumes two nonces rather than retrying
the payload already bound to the first nonce. -/
theorem createOrder_nonce_consumption (env : SubmitEnv) (p : CreateOrderParams)
    (now : Int) (s : ClientState) :
    (¬(env.enableWebSocket = true ∧ env.wsReady = true) →
      (createOrderM env p now s).2.nextNonce = s.nextNonce + 1) ∧
    (∀ txi h, env.enableWebSocket = true → env.wsReady = true →
      env.signCreateOrder (wsWasmParams p s.nextNonce) = .ok txi →
      env.wsSendTransaction txi = .ok h →
      (createOrderM env p now s).2.nextNonce = s.nextNonce + 1) ∧
    (∀ txi e, env.enableWebSocket = true → env.wsReady = true →
      env.signCreateOrder (wsWasmParams p s.nextNonce) = .ok txi →
      env.wsSendTransaction txi = .error e →
      (createOrderM env p now s).2.nextNonce = s.nextNonce + 2) ∧
    (∀ e, env.enableWebSocket = true → env.wsReady = true →
      env.signCreateOrder (wsWasmParams p s.nextNonce) = .error e →
      (createOrderM env p now s).2.nextNonce = s.nextNonce + 2) := by
  refine ⟨?_, ?_, ?_, ?_⟩
  · intro hn
    have hb : (env.enableWebSocket && env.wsReady) = false := by
      cases hw : env.enableWebSocket <;> cases hr : env.wsReady <;> simp_all
    simp only [createOrderM, hb, Bool.false_eq_true, if_false]
    exact createOrderFallbackM_nextNonce env p now s
  · intro txi h hw hr hsig hsend
    simp only [createOrderM, hw, hr, Bool.and_self, if_true, getNextNonceM, hsig, hsend]
  · intro txi e hw hr hsig hsend
    simp only [createOrderM, hw, hr, Bool.and_self, if_true, getNextNonceM, hsig, hsend]
    rw [createOrderFallbackM_nextNonce]
    show s.nextNonce + 1 + 1 = s.nextNonce + 2
    omega
  · intro e hw hr hsig
    simp only [createOrderM, hw, hr, Bool.and_self, if_true, getNextNonceM, hsig]
    rw [createOrderFallbackM_nextNonce]
    show s.nextNonce + 1 + 1 = s.nextNonce + 2
    omega

/-- Witness for the nonce consumption of createOrder: one nonce when the
socket is disabled, two when an enabled and ready socket fails its send. -/
theorem createOrder_nonce_consumption_witness :
    (createOrderM
      { enableWebSocket := false, wsReady := false,
        signCreateOrder := fun _ => Except.ok "signed",
        wsSendTransaction := fun _ => Except.ok "0xws",
        enableBatching := false,
        sendTxHttp := fun _ => Except.ok { hash := none, tx_hash := some "0xabc" } }
      { marketIndex := 0, clientOrderIndex := 1, baseAmount := 2, price := 3,
        isAsk := true, orderType := none, timeInForce := none, reduceOnly := none,
        triggerPrice := none, orderExpiry := none, nonce := none }
      0 { nextNonce := 5 }).2.nextNonce = 5 + 1 ∧
    (createOrderM
      { enableWebSocket := true, wsReady := true,
        signCreateOrder := fun _ => Except.ok "signed",
        wsSendTransaction := fun _ => Except.error "socket send failed",
        enableBatching := false,
        sendTxHttp := fun _ => Except.ok { hash := none, tx_hash := some "0xabc" } }
      { marketIndex := 0, clientOrderIndex := 1, baseAmount := 2, price := 3,
        isAsk := true, orderType := none, timeInForce := none, reduceOnly := none,
        triggerPrice := none, orderExpiry := none, nonce := none }
      0 { nextNonce := 5 }).2.nextNonce = 5 + 2 :=
  ⟨(createOrder_nonce_consumption _ _ 0 _).1 (by simp),
   (createOrder_nonce_consumption _ _ 0 _).2.2.1 "signed" "socket send failed"
      rfl rfl rfl rfl⟩

/-- C1 counterexample: with the socket enabled and ready but its send
failing, a single createOrder call that ultimately succeeds over HTTP with
hash 0xabc consumes two nonces (the pointer advances from 0 to 2), refuting
that exactly one nonce is consumed when multiple channels are attempted. -/
theorem createOrder_double_nonce_counterexample :
    ((createOrderM
      { enableWebSocket := true, wsReady := true,
        signCreateOrder := fun _ => Except.ok "signed",
        wsSendTransaction := fun _ => Except.error "socket send failed",
        enableBatching := false,
        sendTxHttp := fun _ => Except.ok { hash := none, tx_hash := some "0xabc" } }
      { marketIndex := 0, clientOrderIndex := 1, baseAmount := 2, price := 3,
        isAsk := true, orderType := none, timeInForce := none, reduceOnly := none,
        triggerPrice := none, orderExpiry := none, nonce := none }
      0 { nextNonce := 0 }).1.hash = "0xabc") ∧
    ((createOrderM
      { enableWebSocket := true, wsReady := true,
        signCreateOrder := fun _ => Except.ok "signed",
        wsSendTransaction := fun _ => Except.error "socket send failed",
        enableBatching := false,
        sendTxHttp := fun _ => Except.ok { hash := none, tx_hash := some "0xabc" } }
      { marketIndex := 0, clientOrderIndex := 1, baseAmount := 2, price := 3,
        isAsk := true, orderType := none, timeInForce := none, reduceOnly := none,
        triggerPrice := none, orderExpiry := none, nonce := none }
      0 { nextNonce := 0 }).2.nextNonce = 2) ∧ (2 : Int) ≠ 0 + 1 :=
  ⟨rfl, rfl, by decide⟩

/-- The createOrderOptimized path satisfies the exactly-one invariant under a
well-behaved signer and transport. -/
lemma createOrderOptimizedM_exactlyOne (env : SubmitEnv) (p : CreateOrderParams)
    (now : Int) (t : ClientState)
    (h1 : errMsgsNonEmpty env.signCreateOrder) (h2 : sendRespects env.sendTxHttp) :
    exactlyOneHashError (createOrderOptimizedM env p now t).1 = true := by
  simp only [createOrderOptimizedM, getNextNonceM]
  cases hs : env.signCreateOrder (optimizedWasmParams p t.nextNonce now) with
  | error e =>
    have he := h1 _ _ hs
    simp [exactlyOneHashError, hs, he]
  | ok ti =>
    cases hsend : env.sendTxHttp ti with
    | error e =>
      have he := h2.2 _ _ hsend
      simp [exactlyOneHashError, hs, hsend, he]
    | ok r =>
      have hh := h2.1 _ _ hsend
      simp [exactlyOneHashError, hs, hsend, hh]

/-- C2 amended: on every terminal outcome the error component is the caught
or signer-reported message with an empty hash, and the success return carries
a null error with the transport-reported hash.  Provided every success
response carries a non-empty tx_hash or hash and every error message is
non-empty, exactly one of the hash and error components is non-empty for
createMarketOrder, cancelOrder, transfer, withdraw, updateLeverage, and for
createOrder whenever request batching is disabled (socket success, socket
fallback and direct HTTP alike); the batching branch of createOrder instead
returns the batcher's per-item result object with an empty hash and a null
error even on success, because that object has no direct txHash field, so the
invariant fails unconditionally on that branch. -/
theorem submit_exactly_one_conditional
    (env : SubmitEnv) (p : CreateOrderParams) (now : Int) (s0 : ClientState)
    (signMO : WasmOrderParams → Except String String)
    (sendMO : String → Except String TxHashResp)
    (pm : CreateMarketOrderParams) (s1 : ClientState)
    (signC : CancelOrderArgs → Except String String)
    (sendC : String → Except String TxHashResp) (mi oi : Int) (s2 : ClientState)
    (signT : TransferArgs → Except String SignResp)
    (sendT : String → Except String TxHashResp)
    (toAcct usdc nT : Int) (s3 : ClientState)
    (signW : WithdrawArgs → Except String SignResp)
    (sendW : String → Except String TxHashResp) (wu nW : Int) (s4 : ClientState)
    (signU : UpdateLeverageArgs → Except String SignResp)
    (sendU : String → Except String TxHashResp)
    (umi umm uf nU : Int) (s5 : ClientState)
    (henv1 : errMsgsNonEmpty env.signCreateOrder)
    (henv2 : sendRespects env.sendTxHttp)
    (henvw : ∀ x h, env.wsSendTransaction x = .ok h → h ≠ "")
    (hmo1 : errMsgsNonEmpty signMO) (hmo2 : sendRespects sendMO)
    (hc1 : errMsgsNonEmpty signC) (hc2 : sendRespects sendC)
    (ht1 : errMsgsNonEmpty signT) (ht2 : sendRespects sendT)
    (hw1 : errMsgsNonEmpty signW) (hw2 : sendRespects sendW)
    (hu1 : errMsgsNonEmpty signU) (hu2 : sendRespects sendU) :
    (env.enableBatching = false →
      exactlyOneHashError (createOrderM env p now s0).1 = true) ∧
    (env.enableBatching = true → ∀ t : ClientState,
      (createOrderFallbackM env p now t).1 =
        { value := none, hash := "", error := none }) ∧
    (env.enableBatching = true → ¬(env.enableWebSocket = true ∧ env.wsReady = true) →
      (createOrderM env p now s0).1 =
        { value := none, hash := "", error := none }) ∧
    exactlyOneHashError (createMarketOrderM signMO sendMO pm s1).1 = true ∧
    exactlyOneHashError (cancelOrderM signC sendC mi oi s2).1 = true ∧
    exactlyOneHashError (transferM signT sendT toAcct usdc nT s3).1 = true ∧
    exactlyOneHashError (withdrawM signW sendW wu nW s4).1 = true ∧
    exactlyOneHashError (updateLeverageM signU sendU umi umm uf nU s5).1 = true := by
  refine ⟨?_, ?_, ?_, ?_, ?_, ?_, ?_, ?_⟩
  · intro hb
    cases hcond : (env.enableWebSocket && env.wsReady) with
    | false =>
      simp only [createOrderM, hcond, Bool.false_eq_true, if_false]
      simp only [createOrderFallbackM, hb, Bool.false_eq_true, if_false]
      exact createOrderOptimizedM_exactlyOne env p now s0 henv1 henv2
    | true =>
      simp only [createOrderM, hcond, if_true, getNextNonceM]
      cases hsig : env.signCreateOrder (wsWasmParams p s0.nextNonce) with
      | error e =>
        simp only [hsig]
        simp only [createOrderFallbackM, hb, Bool.false_eq_true, if_false]
        exact createOrderOptimizedM_exactlyOne env p now _ henv1 henv2
      | ok ti =>
        cases hws : env.wsSendTransaction ti with
        | ok h =>
          have hh := henvw _ _ hws
          simp [exactlyOneHashError, hsig, hws, hh]
        | error e =>
          simp only [hsig, hws]
          simp only [createOrderFallbackM, hb, Bool.false_eq_true, if_false]
          exact createOrderOptimizedM_exactlyOne env p now _ henv1 henv2
  · intro hb t
    simp [createOrderFallbackM, hb]
  · intro hb hn
    have hcond : (env.enableWebSocket && env.wsReady) = false := by
      cases hw : env.enableWebSocket <;> cases hr : env.wsReady <;> simp_all
    simp only [createOrderM, hcond, Bool.false_eq_true, if_false]
    simp [createOrderFallbackM, hb]
  · simp only [createMarketOrderM, getNextNonceM]
    cases h1 : signMO (marketWasmParams pm s1.nextNonce) with
    | error e =>
      have he := hmo1 _ _ h1
      simp [exactlyOneHashError, h1, he]
    | ok t =>
      cases h2 : sendMO t with
      | error e =>
        have he := hmo2.2 _ _ h2
        simp [exactlyOneHashError, h1, h2, he]
      | ok r =>
        have hh := hmo2.1 _ _ h2
        simp [exactlyOneHashError, h1, h2, hh]
  · simp only [cancelOrderM, getNextNonceM]
    cases h1 : signC ⟨mi, oi, s2.nextNonce⟩ with
    | error e =>
      have he := hc1 _ _ h1
      simp [exactlyOneHashError, h1, he]
    | ok t =>
      cases h2 : sendC t with
      | error e =>
        have he := hc2.2 _ _ h2
        simp [exactlyOneHashError, h1, h2, he]
      | ok r =>
        have hh := hc2.1 _ _ h2
        simp [exactlyOneHashError, h1, h2, hh]
  · rcases hq : resolveNonce nT s3 with ⟨nn, ss⟩
    simp only [transferM, hq]
    cases h1 : signT ⟨toAcct, usdc * 1000000, 0, String.mk (List.replicate 32 'a'), nn⟩ with
    | error e =>
      have he := ht1 _ _ h1
      simp [exactlyOneHashError, h1, he]
    | ok sr =>
      cases ht : jsStrTruthy sr.error with
      | true =>
        rcases sr with ⟨ti, er⟩
        rcases er with _ | e
        · exact absurd ht (by simp [jsStrTruthy])
        · have he : e ≠ "" := by simpa [jsStrTruthy] using ht
          simp [exactlyOneHashError, h1, ht, he, jsStrTruthy]
      | false =>
        cases h2 : sendT sr.txInfo with
        | error e =>
          have he := ht2.2 _ _ h2
          simp [exactlyOneHashError, h1, ht, h2, he]
        | ok r =>
          have hh := ht2.1 _ _ h2
          simp [exactlyOneHashError, h1, ht, h2, hh]
  · rcases hq : resolveNonce nW s4 with ⟨nn, ss⟩
    simp only [withdrawM, hq]
    cases h1 : signW ⟨wu * 1000000, nn⟩ with
    | error e =>
      have he := hw1 _ _ h1
      simp [exactlyOneHashError, h1, he]
    | ok sr =>
      cases ht : jsStrTruthy sr.error with
      | true =>
        rcases sr with ⟨ti, er⟩
        rcases er with _ | e
        · exact absurd ht (by simp [jsStrTruthy])
        · have he : e ≠ "" := by simpa [jsStrTruthy] using ht
          simp [exactlyOneHashError, h1, ht, he, jsStrTruthy]
      | false =>
        cases h2 : sendW sr.txInfo with
        | error e =>
          have he := hw2.2 _ _ h2
          simp [exactlyOneHashError, h1, ht, h2, he]
        | ok r =>
          have hh := hw2.1 _ _ h2
          simp [exactlyOneHashError, h1, ht, h2, hh]
  · rcases hq : resolveNonce nU s5 with ⟨nn, ss⟩
    simp only [updateLeverageM, hq]
    cases h1 : signU ⟨umi, uf, umm, nn⟩ with
    | error e =>
      have he := hu1 _ _ h1
      simp [exactlyOneHashError, h1, he]
    | ok sr =>
      cases ht : jsStrTruthy sr.error with
      | true =>
        rcases sr with ⟨ti, er⟩
        rcases er with _ | e
        · exact absurd ht (by simp [jsStrTruthy])
        · have he : e ≠ "" := by simpa [jsStrTruthy] using ht
          simp [exactlyOneHashError, h1, ht, he, jsStrTruthy]
      | false =>
        cases h2 : sendU sr.txInfo with
        | error e =>
          have he := hu2.2 _ _ h2
          simp [exactlyOneHashError, h1, ht, h2, he]
        | ok r =>
          have hh := hu2.1 _ _ h2
          simp [exactlyOneHashError, h1, ht, h2, hh]

/-- Witness for the conditional exactly-one invariant with collaborators that
never produce empty messages and a transport that reports hash 0xh: the
invariant holds for createOrder without batching, and for transfer; with
batching enabled the same well-behaved createOrder call returns an empty hash
and a null error. -/
theorem submit_exactly_one_witness :
    exactlyOneHashError
      ((createOrderM
        { enableWebSocket := false, wsReady := false,
          signCreateOrder := fun _ => Except.ok "tx",
          wsSendTransaction := fun _ => Except.ok "0xws",
          enableBatching := false,
          sendTxHttp := fun _ => Except.ok { hash := none, tx_hash := some "0xh" } }
        { marketIndex := 0, clientOrderIndex := 1, baseAmount := 2, price := 3,
          isAsk := true, orderType := none, timeInForce := none, reduceOnly := none,
          triggerPrice := none, orderExpiry := none, nonce := none }
        0 { nextNonce := 0 }).1) = true ∧
    ((createOrderM
        { enableWebSocket := false, wsReady := false,
          signCreateOrder := fun _ => Except.ok "tx",
          wsSendTransaction := fun _ => Except.ok "0xws",
          enableBatching := true,
          sendTxHttp := fun _ => Except.ok { hash := none, tx_hash := some "0xh" } }
        { marketIndex := 0, clientOrderIndex := 1, baseAmount := 2, price := 3,
          isAsk := true, orderType := none, timeInForce := none, reduceOnly := none,
          triggerPrice := none, orderExpiry := none, nonce := none }
        0 { nextNonce := 0 }).1 = { value := none, hash := "", error := none }) ∧
    exactlyOneHashError
      ((transferM (fun _ => Except.ok { txInfo := "tx", error := none })
        (fun _ => Except.ok { hash := none, tx_hash := some "0xh" })
        7 1 (-1) { nextNonce := 0 }).1) = true := by
  have hA := submit_exactly_one_conditional
    { enableWebSocket := false, wsReady := false,
      signCreateOrder := fun _ => Except.ok "tx",
      wsSendTransaction := fun _ => Except.ok "0xws",
      enableBatching := false,
      sendTxHttp := fun _ => Except.ok { hash := none, tx_hash := some "0xh" } }
    { marketIndex := 0, clientOrderIndex := 1, baseAmount := 2, price := 3,
      isAsk := true, orderType := none, timeInForce := none, reduceOnly := none,
      triggerPrice := none, orderExpiry := none, nonce := none }
    0 { nextNonce := 0 }
    (fun _ => Except.ok "tx") (fun _ => Except.ok { hash := none, tx_hash := some "0xh" })
    { marketIndex := 1, clientOrderIndex := 2, baseAmount := 3,
      avgExecutionPrice := 4, isAsk := true, reduceOnly := none } { nextNonce := 0 }
    (fun _ => Except.ok "tx") (fun _ => Except.ok { hash := none, tx_hash := some "0xh" })
    3 4 { nextNonce := 0 }
    (fun _ => Except.ok { txInfo := "tx", error := none })
    (fun _ => Except.ok { hash := none, tx_hash := some "0xh" })
    7 1 (-1) { nextNonce := 0 }
    (fun _ => Except.ok { txInfo := "tx", error := none })
    (fun _ => Except.ok { hash := none, tx_hash := some "0xh" })
    6 (-1) { nextNonce := 0 }
    (fun _ => Except.ok { txInfo := "tx", error := none })
    (fun _ => Except.ok { hash := none, tx_hash := some "0xh" })
    0 1 100 (-1) { nextNonce := 0 }
    (fun _ e h => by cases h) ⟨fun _ r h => by cases h; decide, fun _ e h => by cases h⟩
    (fun _ h hh => by cases hh; decide)
    (fun _ e h => by cases h) ⟨fun _ r h => by cases h; decide, fun _ e h => by cases h⟩
    (fun _ e h => by cases h) ⟨fun _ r h => by cases h; decide, fun _ e h => by cases h⟩
    (fun _ e h => by cases h) ⟨fun _ r h => by cases h; decide, fun _ e h => by cases h⟩
    (fun _ e h => by cases h) ⟨fun _ r h => by cases h; decide, fun _ e h => by cases h⟩
    (fun _ e h => by cases h) ⟨fun _ r h => by cases h; decide, fun _ e h => by cases h⟩
  have hB := submit_exactly_one_conditional
    { enableWebSocket := false, wsReady := false,
      signCreateOrder := fun _ => Except.ok "tx",
      wsSendTransaction := fun _ => Except.ok "0xws",
      enableBatching := true,
      sendTxHttp := fun _ => Except.ok { hash := none, tx_hash := some "0xh" } }
    { marketIndex := 0, clientOrderIndex := 1, baseAmount := 2, price := 3,
      isAsk := true, orderType := none, timeInForce := none, reduceOnly := none,
      triggerPrice := none, orderExpiry := none, nonce := none }
    0 { nextNonce := 0 }
    (fun _ => Except.ok "tx") (fun _ => Except.ok { hash := none, tx_hash := some "0xh" })
    { marketIndex := 1, clientOrderIndex := 2, baseAmount := 3,
      avgExecutionPrice := 4, isAsk := true, reduceOnly := none } { nextNonce := 0 }
    (fun _ => Except.ok "tx") (fun _ => Except.ok { hash := none, tx_hash := some "0xh" })
    3 4 { nextNonce := 0 }
    (fun _ => Except.ok { txInfo := "tx", error := none })
    (fun _ => Except.ok { hash := none, tx_hash := some "0xh" })
    7 1 (-1) { nextNonce := 0 }
    (fun _ => Except.ok { txInfo := "tx", error := none })
    (fun _ => Except.ok { hash := none, tx_hash := some "0xh" })
    6 (-1) { nextNonce := 0 }
    (fun _ => Except.ok { txInfo := "tx", error := none })
    (fun _ => Except.ok { hash := none, tx_hash := some "0xh" })
    0 1 100 (-1) { nextNonce := 0 }
    (fun _ e h => by cases h) ⟨fun _ r h => by cases h; decide, fun _ e h => by cases h⟩
    (fun _ h hh => by cases hh; decide)
    (fun _ e h => by cases h) ⟨fun _ r h => by cases h; decide, fun _ e h => by cases h⟩
    (fun _ e h => by cases h) ⟨fun _ r h => by cases h; decide, fun _ e h => by cases h⟩
    (fun _ e h => by cases h) ⟨fun _ r h => by cases h; decide, fun _ e h => by cases h⟩
    (fun _ e h => by cases h) ⟨fun _ r h => by cases h; decide, fun _ e h => by cases h⟩
    (fun _ e h => by cases h) ⟨fun _ r h => by cases h; decide, fun _ e h => by cases h⟩
  exact ⟨hA.1 rfl, hB.2.2.1 rfl (by simp), hA.2.2.2.2.2.1⟩

/-- C2 counterexample: the batching branch of createOrder returns the
per-item result object with an empty hash and a null error even though the
transport reports the non-empty hash 0xh for the processed order, and a
createMarketOrder call whose transport accepts the transaction but returns a
response without any hash field likewise terminates with an empty hash and a
null error; in both terminal outcomes neither component is non-empty. -/
theorem submit_empty_hash_counterexample :
    ((createOrderM
        { enableWebSocket := false, wsReady := false,
          signCreateOrder := fun _ => Except.ok "txinfo",
          wsSendTransaction := fun _ => Except.ok "0xws",
          enableBatching := true,
          sendTxHttp := fun _ => Except.ok { hash := none, tx_hash := some "0xh" } }
        { marketIndex := 0, clientOrderIndex := 1, baseAmount := 2, price := 3,
          isAsk := true, orderType := none, timeInForce := none, reduceOnly := none,
          triggerPrice := none, orderExpiry := none, nonce := none }
        0 { nextNonce := 0 }).1 = { value := none, hash := "", error := none }) ∧
    exactlyOneHashError
      ((createOrderM
        { enableWebSocket := false, wsReady := false,
          signCreateOrder := fun _ => Except.ok "txinfo",
          wsSendTransaction := fun _ => Except.ok "0xws",
          enableBatching := true,
          sendTxHttp := fun _ => Except.ok { hash := none, tx_hash := some "0xh" } }
        { marketIndex := 0, clientOrderIndex := 1, baseAmount := 2, price := 3,
          isAsk := true, orderType := none, timeInForce := none, reduceOnly := none,
          triggerPrice := none, orderExpiry := none, nonce := none }
        0 { nextNonce := 0 }).1) = false ∧
    exactlyOneHashError
      ((createMarketOrderM (fun _ => Except.ok "txinfo")
        (fun _ => Except.ok { hash := none, tx_hash := none })
        { marketIndex := 1, clientOrderIndex := 2, baseAmount := 3,
          avgExecutionPrice := 4, isAsk := true, reduceOnly := none }
        { nextNonce := 0 }).1) = false ∧
    ((createMarketOrderM (fun _ => Except.ok "txinfo")
        (fun _ => Except.ok { hash := none, tx_hash := none })
        { marketIndex := 1, clientOrderIndex := 2, baseAmount := 3,
          avgExecutionPrice := 4, isAsk := true, reduceOnly := none }
        { nextNonce := 0 }).1.hash = "") ∧
    ((createMarketOrderM (fun _ => Except.ok "txinfo")
        (fun _ => Except.ok { hash := none, tx_hash := none })
        { marketIndex := 1, clientOrderIndex := 2, baseAmount := 3,
          avgExecutionPrice := 4, isAsk := true, reduceOnly := none }
        { nextNonce := 0 }).1.error = none) :=
  ⟨rfl, rfl, rfl, rfl, rfl⟩

/-- C8: on the WebSocket signing path of createOrder the sentinel expiry -1
reaches the signer unconverted, while createOrderOptimized converts the same
parameters to the absolute timestamp now plus 28 days; the take-profit-limit
parameters used are exactly those createTpLimitOrder passes. -/
theorem ws_expiry_sentinel_reaches_signer :
    (wsWasmParams
      { marketIndex := 0, clientOrderIndex := 1, baseAmount := 2, price := 3,
        isAsk := true, orderType := some ORDER_TYPE_TAKE_PROFIT_LIMIT,
        timeInForce := some 1, reduceOnly := none, triggerPrice := some 10,
        orderExpiry := some (-1), nonce := none } 7).orderExpiry = -1 ∧
    (optimizedWasmParams
      { marketIndex := 0, clientOrderIndex := 1, baseAmount := 2, price := 3,
        isAsk := true, orderType := some ORDER_TYPE_TAKE_PROFIT_LIMIT,
        timeInForce := some 1, reduceOnly := none, triggerPrice := some 10,
        orderExpiry := some (-1), nonce := none } 7 1000).orderExpiry =
      1000 + 28 * 24 * 60 * 60 * 1000 :=
  ⟨rfl, rfl⟩

/-- C9: the batch processor returns exactly one result per queued request in
order, each carrying that request's id and the flush timestamp; it is a
pointwise map, so item i's outcome depends only on request i and a failure on
one item leaves every other item's result unchanged; a failing create-order
item is recorded as exactly that item's error result. -/
theorem processBatch_per_item (orderH cancelH : String → Except String String)
    (ts : Nat) (rs : List BatchReq) :
    processBatch orderH cancelH ts rs = rs.map (processBatchItem orderH cancelH ts) ∧
    (processBatch orderH cancelH ts rs).length = rs.length ∧
    (∀ r, (processBatchItem orderH cancelH ts r).id = r.id ∧
      (processBatchItem orderH cancelH ts r).timestamp = ts) ∧
    (∀ r e, r.rtype = "CREATE_ORDER" → orderH r.params = .error e →
      processBatchItem orderH cancelH ts r =
        { id := r.id, success := false, result := none, error := some e,
          timestamp := ts }) := by
  have hmap : processBatch orderH cancelH ts rs =
      rs.map (processBatchItem orderH cancelH ts) := by
    induction rs with
    | nil => rfl
    | cons r rs ih => simp [processBatch, ih]
  refine ⟨hmap, by rw [hmap, List.length_map], ?_, ?_⟩
  · intro r
    constructor <;>
    · simp only [processBatchItem]
      split <;> rfl
  · intro r e hty he
    simp [processBatchItem, hty, he]

/-- Witness for the batch processor on a two-item flush whose first item
fails: the failure is recorded on item one and item two still succeeds. -/
theorem processBatch_per_item_witness :
    processBatch (fun _ => Except.error "boom") (fun _ => Except.ok "0xh") 5
      [{ id := 1, rtype := "CREATE_ORDER", params := "a" },
       { id := 2, rtype := "CANCEL_ORDER", params := "b" }] =
      [{ id := 1, success := false, result := none, error := some "boom", timestamp := 5 },
       { id := 2, success := true, result := some "0xh", error := none, timestamp := 5 }] :=
  ((processBatch_per_item (fun _ => Except.error "boom") (fun _ => Except.ok "0xh") 5
      [{ id := 1, rtype := "CREATE_ORDER", params := "a" },
       { id := 2, rtype := "CANCEL_ORDER", params := "b" }]).1).trans (by rfl)

/-- C10: changeApiKey signs its ChangePubKey transaction with the constant
nonce 0 and passes the client nonce state through unchanged on every branch:
no call consumes a cached nonce. -/
theorem changeApiKey_nonce_zero
    (ethSignOutcome : Except String String)
    (signCPK : ChangePubKeyArgs → Except String SignResp)
    (send : String → Except String TxHashResp)
    (cfg : Int) (newIdx : Option Int) (pub l1 : String) (now : Int)
    (s : ClientState) :
    (changeApiKeyM ethSignOutcome signCPK send cfg newIdx pub now s).2 = s ∧
    (changeApiKeyArgs cfg newIdx pub l1 now).nonce = 0 := by
  refine ⟨?_, rfl⟩
  cases ethSignOutcome with
  | error e => rfl
  | ok l1s =>
    cases hc : signCPK (changeApiKeyArgs cfg newIdx pub l1s now) with
    | error e => simp [changeApiKeyM, hc]
    | ok result =>
      cases ht : jsStrTruthy result.error with
      | true => simp [changeApiKeyM, hc, ht]
      | false =>
        cases hs : send result.txInfo with
        | error e => simp [changeApiKeyM, hc, ht, hs]
        | ok r => simp [changeApiKeyM, hc, ht, hs]

/-- Witness for changeApiKey at concrete collaborators: the nonce state is
returned unchanged and the signer arguments carry nonce 0. -/
theorem changeApiKey_nonce_zero_witness :
    (changeApiKeyM (Except.ok "sig")
      (fun _ => Except.ok { txInfo := "tx", error := none })
      (fun _ => Except.ok { hash := none, tx_hash := some "0xh" })
      2 none "pub" 0 { nextNonce := 5 }).2 = { nextNonce := 5 } ∧
    (changeApiKeyArgs 2 none "pub" "sig" 0).nonce = 0 :=
  changeApiKey_nonce_zero (Except.ok "sig")
    (fun _ => Except.ok { txInfo := "tx", error := none })
    (fun _ => Except.ok { hash := none, tx_hash := some "0xh" })
    2 none "pub" "sig" 0 { nextNonce := 5 }

/-- Serving from a sufficiently filled window issues its prefix and performs
no remote fetch. -/
lemma issueMany_serve (batchSize : Nat) :
    ∀ (k : Nat) (w : List Nat) (li : Option Nat) (r : RemoteState), k ≤ w.length →
      (issueMany batchSize k { window := w, lastIssued := li, remote := r }).1 =
        w.take k ∧
      (issueMany batchSize k { window := w, lastIssued := li, remote := r }).2.window =
        w.drop k ∧
      (issueMany batchSize k { window := w, lastIssued := li, remote := r }).2.remote =
        r := by
  intro k
  induction k with
  | zero => intro w li r _; exact ⟨rfl, rfl, rfl⟩
  | succ j ih =>
    intro w li r hk
    cases w with
    | nil => exact absurd hk (by simp)
    | cons a w2 =>
      have hj : j ≤ w2.length := by simpa using hk
      obtain ⟨h1, h2, h3⟩ := ih w2 (some a) r hj
      refine ⟨?_, ?_, ?_⟩ <;>
        simp [issueMany, cacheGetNextNonce, h1, h2, h3]

/-- C7: a refill performs exactly one remote fetch and installs exactly the
consecutive batch base+0 .. base+N-1; issuing k of N nonces starting from an
empty window returns base+0 .. base+k-1 and performs one remote fetch on the
first call and none on the following ones. -/
theorem nonce_window_refill (base batchSize k : Nat) (hN : 0 < batchSize)
    (hk : k ≤ batchSize) :
    (nonceFetchBatch batchSize { nextNonce := base, fetches := 0 }).1 =
      (List.range batchSize).map (fun i => base + i) ∧
    (nonceFetchBatch batchSize { nextNonce := base, fetches := 0 }).2.fetches = 1 ∧
    (issueMany batchSize k ⟨[], none, ⟨base, 0⟩⟩).1 =
      (List.range k).map (fun i => base + i) ∧
    (issueMany batchSize k ⟨[], none, ⟨base, 0⟩⟩).2.remote.fetches =
      (if k = 0 then 0 else 1) := by
  refine ⟨rfl, rfl, ?_, ?_⟩
  all_goals {
    cases k with
    | zero => rfl
    | succ j =>
      obtain ⟨m, rfl⟩ : ∃ m, batchSize = m + 1 := by
        cases batchSize with
        | zero => exact absurd hN (by simp)
        | succ m => exact ⟨m, rfl⟩
      have hjm : j ≤ ((List.range m).map (fun i => base + (i + 1))).length := by
        simpa using Nat.lt_succ_iff.mp hk
      have hcons : (List.range (m + 1)).map (fun i => base + i) =
          base :: (List.range m).map (fun i => base + (i + 1)) := by
        rw [List.range_succ_eq_map, List.map_cons, List.map_map]
        simp [Function.comp_def, Nat.succ_eq_add_one]
      obtain ⟨hs1, hs2, hs3⟩ :=
        issueMany_serve (m + 1) j ((List.range m).map (fun i => base + (i + 1)))
          (some base) { nextNonce := base, fetches := 1 } hjm
      simp only [issueMany, cacheGetNextNonce, nonceFetchBatch, remoteGetNextNonce, hcons]
      simp [hs1, hs3, List.range_succ_eq_map, List.map_map, Function.comp_def,
        Nat.succ_eq_add_one]
      try rw [← List.map_take, List.take_range, Nat.min_eq_left (Nat.lt_succ_iff.mp hk)]
  }

/-- Witness for the refill behavior at base 100 with batch size 3: three
calls issue 100, 101, 102 with exactly one remote fetch. -/
theorem nonce_window_refill_witness :
    (issueMany 3 3 ⟨[], none, ⟨100, 0⟩⟩).1 = [100, 101, 102] ∧
    (issueMany 3 3 ⟨[], none, ⟨100, 0⟩⟩).2.remote.fetches = 1 :=
  ⟨((nonce_window_refill 100 3 3 (by decide) (by decide)).2.2.1).trans (by rfl),
   ((nonce_window_refill 100 3 3 (by decide) (by decide)).2.2.2).trans (by rfl)⟩

/-- C4 amended: on a refill the cache adopts the freshly fetched remote value
unconditionally as the new window base, whatever nonce was last issued
locally; the max reconciliation against the locally last-issued nonce plus
one is the spec's recommended hardening, not the modelled source behavior. -/
theorem cache_refill_trusts_remote (batchSize : Nat) (li : Option Nat)
    (r : RemoteState) (h : 0 < batchSize) :
    (cacheGetNextNonce batchSize { window := [], lastIssued := li, remote := r }).1 =
      r.nextNonce := by
  obtain ⟨m, rfl⟩ : ∃ m, batchSize = m + 1 := by
    cases batchSize with
    | zero => exact absurd h (by simp)
    | succ m => exact ⟨m, rfl⟩
  simp [cacheGetNextNonce, nonceFetchBatch, remoteGetNextNonce, List.range_succ_eq_map]

/-- Witness for the unconditional adoption of the remote base: with last
issued nonce 10 and a remote fetch returning 5, the refill hands out 5. -/
theorem cache_refill_trusts_remote_witness :
    (cacheGetNextNonce 3 ⟨[], some 10, ⟨5, 0⟩⟩).1 = 5 :=
  cache_refill_trusts_remote 3 (some 10) { nextNonce := 5, fetches := 0 } (by decide)

/-- C4 counterexample: with nonce 10 already issued locally and the remote
refill returning 5, the cache hands out 5 as the new base, not the claimed
reconciled base max 5 (10 + 1) = 11. -/
theorem cache_refill_regression_counterexample :
    (cacheGetNextNonce 3 ⟨[], some 10, ⟨5, 0⟩⟩).1 = 5 ∧
    (5 : Nat) ≠ max 5 (10 + 1) :=
  ⟨rfl, by decide⟩

end LighterTs
